import Mathlib

/-!
Shallow embedding of the robphilipp/result TypeScript library (src/Result.ts).

Modelling conventions, used consistently below:

- A JavaScript value of the generic payload type `S` is modelled as `Option S`:
  `none` is the JavaScript value `undefined`, `some v` a defined value.  This
  matters because the `Result` constructor and every combinator test payloads
  with `!== undefined`, and because the TypeScript type parameter `S` is
  unconstrained, so callers can pass `undefined` (e.g. `successResult(undefined)`).
- The failure type parameter `F extends ToString` excludes `undefined`, so the
  public `failure` factory takes a defined payload `e : F`; internally, however,
  combinators re-wrap `this.error`, which can be `undefined`, so the raw
  constructor argument is `Option F`.
- JavaScript strict equality `===` on payloads is modelled by a `BEq` instance
  on the payload type.  Concrete payload types below encode the two relevant
  non-structural aspects of `===`: object identity (`JsRef`, compared by
  allocation address) and non-reflexivity at `NaN` (`JsPrim`).
- A caller-supplied side-effect handler that may throw is modelled as a
  function returning `Option JsError`: `none` means a normal return, `some err`
  means the handler threw `err`.
- `getOrThrow` is modelled in `Except String`: `Except.error msg` models
  `throw Error(msg)`, where `Error(undefined)` has message `""`.
-/

set_option autoImplicit false

/-- Result of src/Result.ts: the private constructor stores the `success` and
`failure` fields of its `ResultType` argument unchanged into the readonly
`value` and `error` fields.  `succeeded`/`failed` are assigned once from those
fields in the constructor, and since the fields are readonly they are modelled
as derived functions below. -/
structure Result (S F : Type) where
  value : Option S
  error : Option F
deriving DecidableEq

namespace Result

variable {S F SP FP : Type}

/-- Constructor line `this.succeeded = success !== undefined && failure === undefined`. -/
def succeeded (r : Result S F) : Bool := r.value.isSome && r.error.isNone

/-- Constructor line `this.failed = failure !== undefined`. -/
def failed (r : Result S F) : Bool := r.error.isSome

/-- Internal constructor call `new Result({success: v})` (the `failure` key is
absent, i.e. `undefined`). -/
def mkSuccess (v : Option S) : Result S F := ⟨v, none⟩

/-- Internal constructor call `new Result({failure: e})` (the `success` key is
absent).  `e` is `Option F` because combinators pass `this.error`, which can be
`undefined`. -/
def mkFailure (e : Option F) : Result S F := ⟨none, e⟩

/-- Public factory `Result.success(success)`.  The argument is `Option S`
because the TypeScript type parameter `S` is unconstrained and may itself admit
`undefined`. -/
def success (v : Option S) : Result S F := mkSuccess v

/-- Public factory `Result.failure(failure)`.  `F extends ToString`, which
excludes `undefined`, so the argument is a defined payload. -/
def failure (e : F) : Result S F := mkFailure (some e)

/-- Method `equals(result)`: `this` is `self`, the parameter is `other`.
Strict equality `===` on payloads is the `BEq` instance; on `Option` it agrees
with `===` on possibly-undefined values (`undefined === undefined` is true,
`undefined === v` is false for defined `v`). -/
def equals [BEq S] [BEq F] (self other : Result S F) : Bool :=
  if other.succeeded != self.succeeded then false
  else if self.succeeded then other.value == self.value
  else other.error == self.error

/-- Method `nonEqual(result)`. -/
def nonEqual [BEq S] [BEq F] (self other : Result S F) : Bool := !(self.equals other)

/-- Method `map(mapper)`.  The mapper returns a possibly-undefined value
(`Option SP`).  Guard: `this.succeeded && this.value !== undefined`. -/
def map (self : Result S F) (mapper : S → Option SP) : Result SP F :=
  match self.succeeded, self.value with
  | true, some v => mkSuccess (mapper v)
  | _, _ => mkFailure self.error

/-- Method `flatMap(next)`. -/
def flatMap (self : Result S F) (next : S → Result SP F) : Result SP F :=
  match self.succeeded, self.value with
  | true, some v => next v
  | _, _ => mkFailure self.error

/-- Method `mapFailure(mapper)`. -/
def mapFailure (self : Result S F) (mapper : F → FP) : Result S FP :=
  match self.failed, self.error with
  | true, some e => mkFailure (some (mapper e))
  | _, _ => mkSuccess self.value

/-- A JavaScript `Error` object, as far as the library observes it: its
`message` property. -/
structure JsError where
  message : String
deriving DecidableEq

/-- Capability of the failure type `F extends ToString`, together with the
object-literal cast the library performs in `errorMessageResult` and in
`filter`: `{toString: () => s} as F` is `ofStr s`, and invoking `.toString()`
on a payload is `str`.  The law `str_ofStr` is the defining property of the
cast object literal. -/
class ToStringObj (F : Type) where
  str : F → String
  ofStr : String → F
  str_ofStr : ∀ s, str (ofStr s) = s

/-- Private static `errorMessageResult(message, error)`: a failure Result whose
payload is the object literal `{toString: () => message + "; error: " + error.message}`
cast to `F`. -/
def errorMessageResult [ToStringObj F] (message : String) (error : JsError) : Result S F :=
  mkFailure (some (ToStringObj.ofStr (message ++ "; error: " ++ error.message)))

/-- Method `onSuccess(handler)`.  The handler either returns normally (`none`)
or throws (`some err`); a throw is caught and converted by `errorMessageResult`. -/
def onSuccess [ToStringObj F] (self : Result S F) (handler : S → Option JsError) : Result S F :=
  match self.succeeded, self.value with
  | true, some v =>
    match handler v with
    | some err => errorMessageResult "Result.onSuccess handler threw an error" err
    | none => self
  | _, _ => self

/-- Method `onFailure(handler)`. -/
def onFailure [ToStringObj F] (self : Result S F) (handler : F → Option JsError) : Result S F :=
  match self.failed, self.error with
  | true, some e =>
    match handler e with
    | some err => errorMessageResult "Result.onFailure handler threw an error" err
    | none => self
  | _, _ => self

/-- Method `getOrThrow()`: returns the value when `this.succeeded && this.value
!== undefined`, otherwise `throw Error(this.error?.toString())`.  When `error`
is `undefined`, `Error(undefined)` has message `""`. -/
def getOrThrow [ToStringObj F] (self : Result S F) : Except String S :=
  match self.succeeded, self.value with
  | true, some v => Except.ok v
  | _, _ =>
    Except.error
      (match self.error with
       | some e => ToStringObj.str e
       | none => "")

end Result

/-- The settlement of the awaited promise inside `liftPromise`.  The guard
`hasAndThen` evaluates the JavaScript in-operator expression testing whether
a `flatMap` member is in `promisedValue`,
whose semantics depend on the settled value:

- `isResult r`: an object with a `flatMap` property (a library Result); the
  test yields `true`.
- `bareObj v`: an object without a `flatMap` property; the test yields `false`.
- `barePrim v`: a primitive (a number, string, boolean, `null` or `undefined`);
  the `in` operator requires an object operand and **throws a TypeError**.
- `rejected e`: the promise rejects, so `await` itself throws the reason
  (typed `F` by the `error as F` cast in the catch clause). -/
inductive JsSettled (S F : Type)
  | isResult (r : Result S F)
  | bareObj (v : S)
  | barePrim (v : S)
  | rejected (e : F)

/-- The success payload of the Result on which `liftPromise` is invoked: either
a pending promise (`value instanceof Promise`) with its eventual settlement, or
a plain non-promise value (returned via the `this.value as unknown as SP` cast). -/
inductive PromiseOr (S F : Type)
  | pending (settled : JsSettled S F)
  | plain (v : S)

/-- Models the catch-clause cast `error as F` applied to the TypeError thrown
by evaluating the `in` operator on a primitive operand. -/
class TypeErrorCast (F : Type) where
  castTypeError : F

instance : TypeErrorCast String :=
  ⟨"TypeError: Cannot use the in operator to search for flatMap in a primitive value"⟩

namespace Result

variable {S F : Type}

/-- Method `liftPromise()`.  The async method is modelled by the Result its
returned promise eventually resolves with; the `try`/`catch` around the `await`
and the `hasAndThen` test routes a rejection or a thrown TypeError to the
catch clause, which returns `new Result({failure: error as F})`. -/
def liftPromise [TypeErrorCast F] (self : Result (PromiseOr S F) F) : Result S F :=
  match self.succeeded, self.value with
  | true, some pv =>
    match pv with
    | .pending (.rejected e) => mkFailure (some e)
    | .pending (.isResult res) => res
    | .pending (.bareObj v) => mkSuccess (some v)
    | .pending (.barePrim _) => mkFailure (some TypeErrorCast.castTypeError)
    | .plain v => mkSuccess (some v)
  | _, _ => mkFailure self.error

end Result

/-- The loop in `forEachResult`/`forEachElement` that pushes `result.error`
onto `failed` for every result with `result.failed && result.error !== undefined`,
in input order. -/
def collectFailed {S F : Type} : List (Result S F) → List F
  | [] => []
  | r :: rest =>
    match r.failed, r.error with
    | true, some e => e :: collectFailed rest
    | _, _ => collectFailed rest

/-- The loop in `forEachResult`/`forEachElement` that pushes `result.value`
onto `succeeded` for every result with `result.succeeded && result.value !== undefined`,
in input order. -/
def collectSucceeded {S F : Type} : List (Result S F) → List S
  | [] => []
  | r :: rest =>
    match r.succeeded, r.value with
    | true, some v => v :: collectSucceeded rest
    | _, _ => collectSucceeded rest

/-- Free function `forEachResult(resultList, handler)` of src/Result.ts. -/
def forEachResult {SI FI SO FO : Type}
    (resultList : List (Result SI FI)) (handler : Result SI FI → Result SO FO) :
    Result (List SO) (List FO) :=
  let results := resultList.map (fun value => handler value)
  if (results.filter (fun result => result.succeeded)).length ≠ results.length then
    Result.failure (collectFailed results)
  else
    Result.mkSuccess (some (collectSucceeded results))

/-- Free function `forEachElement(elems, handler)` of src/Result.ts. -/
def forEachElement {V S F : Type}
    (elems : List V) (handler : V → Result S F) : Result (List S) (List F) :=
  let results := elems.map (fun elem => handler elem)
  if (results.filter (fun result => result.succeeded)).length ≠ results.length then
    Result.failure (collectFailed results)
  else
    Result.mkSuccess (some (collectSucceeded results))

/-- One step of the `values.reduce` callback inside `reduceToResult`, acting on
the pair (accumulator, failures-pushed-so-far).  `falsy` models JavaScript
truthiness on defined values of `S` (e.g. the number `0`, `""`, `false` are
falsy), used by the expression `result.value || reducedValue`; an `undefined`
`result.value` is falsy as well, handled by the `none` case. -/
def Result.reduceStep {V S F : Type} (falsy : S → Bool)
    (reducer : Option S → V → Result S F)
    (acc : Option S × List F) (v : V) : Option S × List F :=
  let result := reducer acc.1 v
  match result.error with
  | some e => (acc.1, acc.2 ++ [e])
  | none =>
    match result.value with
    | some x => (if falsy x then acc.1 else some x, acc.2)
    | none => (acc.1, acc.2)

/-- The `values.reduce(..., initialValue)` call of `reduceToResult`, paired
with the `failures` array it pushes onto. -/
def reduceAccum {V S F : Type} (falsy : S → Bool) (values : List V)
    (reducer : Option S → V → Result S F) (initialValue : Option S) :
    Option S × List F :=
  values.foldl (Result.reduceStep falsy reducer) (initialValue, [])

/-- Free function `reduceToResult(values, reducer, initialValue)` of
src/Result.ts.  The accumulator has type `Option S` since the TypeScript `S`
may admit `undefined` (the final test is `reduced === undefined`). -/
def reduceToResult {V S F : Type} (falsy : S → Bool) (values : List V)
    (reducer : Option S → V → Result S F) (initialValue : Option S) :
    Result S (List F) :=
  let p := reduceAccum falsy values reducer initialValue
  if p.1.isNone || !p.2.isEmpty then
    Result.failure p.2
  else
    Result.mkSuccess p.1

/-- A JavaScript value of type `T | null | undefined`, the domain of
the stored `value` field of `Optional`. -/
inductive JsNullable (T : Type)
  | jsundefined
  | jsnull
  | val (t : T)
deriving DecidableEq

/-- Optional of src/Optional.ts: the private constructor stores the possibly
null-or-undefined value. -/
structure Optional (T : Type) where
  value : JsNullable T
deriving DecidableEq

namespace Optional

variable {T U : Type}

/-- Static factory `Optional.ofNullable(value)`. -/
def ofNullable (value : JsNullable T) : Optional T := ⟨value⟩

/-- Static factory `Optional.of(value)`: the argument is `NonNullable<T>`,
hence a defined, non-null value. -/
def of (t : T) : Optional T := ⟨.val t⟩

/-- Static factory `Optional.empty()`: calls `ofNullable()` with the argument
absent, i.e. `undefined`. -/
def empty : Optional T := ofNullable .jsundefined

/-- Method `isEmpty()`: `this.value === null || this.value === undefined`. -/
def isEmpty (self : Optional T) : Bool :=
  match self.value with
  | .jsundefined => true
  | .jsnull => true
  | .val _ => false

/-- Method `isNotEmpty()`: `this.value !== null && this.value !== undefined`. -/
def isNotEmpty (self : Optional T) : Bool :=
  match self.value with
  | .jsundefined => false
  | .jsnull => false
  | .val _ => true

/-- Method `map(mapper)`: the mapper may itself return `null` or `undefined`,
hence its codomain `JsNullable U`; the result is re-wrapped with `ofNullable`. -/
def map (self : Optional T) (mapper : T → JsNullable U) : Optional U :=
  match self.isNotEmpty, self.value with
  | true, .val t => ofNullable (mapper t)
  | _, _ => empty

end Optional

/-- A fragment of the JavaScript number primitives sufficient to express that
`===` is not reflexive: `NaN === NaN` evaluates to `false`.  The `BEq`
instance is `===` on this fragment. -/
inductive JsPrim
  | nan
  | int (n : Int)
deriving DecidableEq

/-- Strict equality `===` on `JsPrim`: any comparison involving `NaN` is
`false`, including `NaN === NaN`. -/
def JsPrim.jsEq : JsPrim → JsPrim → Bool
  | .int m, .int n => m == n
  | _, _ => false

instance : BEq JsPrim := ⟨JsPrim.jsEq⟩

/-- A JavaScript object reference: an allocation address plus the (array)
contents stored there.  Two separately constructed arrays with the same
elements have distinct addresses. -/
structure JsRef where
  addr : Nat
  elems : List Nat
deriving DecidableEq

/-- Strict equality `===` on object references compares identity (the
address), never the structural contents. -/
instance : BEq JsRef := ⟨fun a b => a.addr == b.addr⟩

instance : Result.ToStringObj String := ⟨id, id, fun _ => rfl⟩

/-! Helper lemmas about the constructor wrappers. -/

@[simp] theorem Result.value_mkSuccess {S F : Type} (v : Option S) :
    (Result.mkSuccess v : Result S F).value = v := rfl

@[simp] theorem Result.error_mkSuccess {S F : Type} (v : Option S) :
    (Result.mkSuccess v : Result S F).error = none := rfl

@[simp] theorem Result.value_mkFailure {S F : Type} (e : Option F) :
    (Result.mkFailure e : Result S F).value = none := rfl

@[simp] theorem Result.error_mkFailure {S F : Type} (e : Option F) :
    (Result.mkFailure e : Result S F).error = e := rfl

@[simp] theorem Result.succeeded_mkSuccess {S F : Type} (v : Option S) :
    (Result.mkSuccess v : Result S F).succeeded = v.isSome := by
  simp [Result.succeeded, Result.mkSuccess]

@[simp] theorem Result.failed_mkSuccess {S F : Type} (v : Option S) :
    (Result.mkSuccess v : Result S F).failed = false := rfl

@[simp] theorem Result.succeeded_mkFailure {S F : Type} (e : Option F) :
    (Result.mkFailure e : Result S F).succeeded = false := rfl

@[simp] theorem Result.failed_mkFailure {S F : Type} (e : Option F) :
    (Result.mkFailure e : Result S F).failed = e.isSome := rfl

@[simp] theorem Result.success_eq {S F : Type} (v : Option S) :
    (Result.success v : Result S F) = Result.mkSuccess v := rfl

@[simp] theorem Result.failure_eq {S F : Type} (e : F) :
    (Result.failure e : Result S F) = Result.mkFailure (some e) := rfl

/-- C1 counterexample: the public factory applied to the JavaScript value
`undefined` produces a Result with `succeeded` and `failed` both `false` — it
is in neither of the two logical states and the two flags are not complements,
refuting the claim for the value `v = undefined`. -/
theorem success_undefined_both_flags_false :
    (Result.success (none : Option Nat) : Result Nat String).succeeded = false ∧
    (Result.success (none : Option Nat) : Result Nat String).failed = false :=
  ⟨rfl, rfl⟩

/-- C1 (amended): for every defined value `v`, `Result.success(v)` has
`succeeded = true` and `failed = false`; for every failure payload `e`,
`Result.failure(e)` has `failed = true` and `succeeded = false`;
`Result.success(undefined)` has both flags `false`; `succeeded` and `failed`
are complements for every Result with at least one payload present; and the
never-both-present invariant holds for every output of `map`, and of `flatMap`
whenever the callback returns Results satisfying it. -/
theorem result_state_flags_amended {S F SP : Type} (v : S) (e : F) (r : Result S F)
    (mapper : S → Option SP) (next : S → Result SP F) :
    ((Result.success (some v) : Result S F).succeeded = true ∧
      (Result.success (some v) : Result S F).failed = false) ∧
    ((Result.failure e : Result S F).failed = true ∧
      (Result.failure e : Result S F).succeeded = false) ∧
    ((Result.success (none : Option S) : Result S F).succeeded = false ∧
      (Result.success (none : Option S) : Result S F).failed = false) ∧
    ((r.value.isSome = true ∨ r.error.isSome = true) → r.succeeded = !r.failed) ∧
    (((r.map mapper).value.isSome && (r.map mapper).error.isSome) = false) ∧
    ((∀ x, ((next x).value.isSome && (next x).error.isSome) = false) →
      ((r.flatMap next).value.isSome && (r.flatMap next).error.isSome) = false) := by
  refine ⟨⟨rfl, rfl⟩, ⟨rfl, rfl⟩, ⟨rfl, rfl⟩, ?_, ?_, ?_⟩
  · rcases r with ⟨val, err⟩
    rcases val with _ | v₀ <;> rcases err with _ | e₀ <;>
      simp [Result.succeeded, Result.failed] at *
  · rcases r with ⟨val, err⟩
    rcases val with _ | v₀ <;> rcases err with _ | e₀ <;>
      simp [Result.map, Result.succeeded]
  · intro hnext
    rcases r with ⟨val, err⟩
    rcases val with _ | v₀ <;> rcases err with _ | e₀ <;>
      simp [Result.flatMap, Result.succeeded, hnext]

/-- C1 witness: the complement property applied at the concrete failure
Result `Result.failure("x")`. -/
theorem result_state_flags_amended_witness :
    (Result.failure "x" : Result Nat String).succeeded =
      !(Result.failure "x" : Result Nat String).failed :=
  (result_state_flags_amended 3 "e" (Result.failure "x") (fun n => some n)
      (fun n => Result.success (some n))).2.2.2.1 (Or.inr rfl)

/-- C6 counterexample: `Result.success(undefined)` is not a failure
(`failed = false`), yet `getOrThrow` raises (`Error(undefined)`, whose message
is the empty string), refuting "raises exactly when the Result is a failure". -/
theorem getOrThrow_raises_on_success_undefined :
    (Result.success (none : Option Nat) : Result Nat String).failed = false ∧
    (Result.success (none : Option Nat) : Result Nat String).getOrThrow = Except.error "" :=
  ⟨rfl, rfl⟩

/-- C6 (amended): `getOrThrow` raises exactly when the Result is not a success
with a defined value (that is, on every failure, and also on a success whose
payload is `undefined`); on a failure the message is the string representation
of the failure payload; on a success with a defined value it returns the value
without raising. -/
theorem getOrThrow_amended {S F : Type} [Result.ToStringObj F] (r : Result S F) :
    (∀ e, r.error = some e → r.getOrThrow = Except.error (Result.ToStringObj.str e)) ∧
    (∀ v, r.value = some v → r.error = none → r.getOrThrow = Except.ok v) ∧
    ((∃ s, r.getOrThrow = Except.error s) ↔ r.succeeded = false) := by
  rcases r with ⟨val, err⟩
  rcases val with _ | v₀ <;> rcases err with _ | e₀ <;>
    simp [Result.getOrThrow, Result.succeeded]

/-- C6 witness: `getOrThrow` on the concrete failure `Result.failure("x")`
raises with message `"x"`. -/
theorem getOrThrow_amended_witness :
    (Result.failure "x" : Result Nat String).getOrThrow = Except.error "x" :=
  (getOrThrow_amended (Result.failure "x")).1 "x" rfl

/-- C7 counterexample: for the Result `successResult(NaN)`, the identity-mapped
Result is not `equals` to the original, because `equals` compares payloads with
`===` and `NaN === NaN` is `false`. -/
theorem map_identity_fails_on_nan :
    ((Result.success (some JsPrim.nan) : Result JsPrim String).map (fun v => some v)).equals
      (Result.success (some JsPrim.nan)) = false := by decide

/-- C7 (amended): the map identity law `r.map(x => x).equals(r)` holds for
every Result whose stored payloads are `===`-reflexive (every JavaScript value
except `NaN` is); it fails when a payload is `NaN`. -/
theorem map_identity_amended {S F : Type} [BEq S] [BEq F] (r : Result S F)
    (hv : ∀ v, r.value = some v → (v == v) = true)
    (he : ∀ e, r.error = some e → (e == e) = true) :
    (r.map (fun v => some v)).equals r = true := by
  rcases r with ⟨val, err⟩
  rcases val with _ | v₀
  · rcases err with _ | e₀
    · simp [Result.map, Result.equals, Result.succeeded]
    · have h := he e₀ rfl
      simp [Result.map, Result.equals, Result.succeeded, h]
  · rcases err with _ | e₀
    · have h := hv v₀ rfl
      simp [Result.map, Result.equals, Result.succeeded, h]
    · have h := he e₀ rfl
      simp [Result.map, Result.equals, Result.succeeded, Result.failed, h]

/-- C7 witness: the amended identity law applied at the concrete Result
`successResult(3)`, whose payload is `===`-reflexive. -/
theorem map_identity_amended_witness :
    ((Result.success (some (3 : Nat)) : Result Nat String).map (fun v => some v)).equals
      (Result.success (some 3)) = true :=
  map_identity_amended _ (fun v h => by cases h; rfl) (fun e h => by cases h)

/-- C10 (confirmed): `equals` compares payloads with `===`, i.e. reference
identity for objects: two success Results holding separately constructed
arrays with the same elements (distinct addresses, equal contents) are not
equal, while two Results holding the same reference are equal. -/
theorem equals_reference_identity :
    ((Result.success (some (⟨0, [1, 2]⟩ : JsRef)) : Result JsRef String).equals
        (Result.success (some ⟨1, [1, 2]⟩)) = false) ∧
    ((Result.success (some (⟨0, [1, 2]⟩ : JsRef)) : Result JsRef String).equals
        (Result.success (some ⟨0, [1, 2]⟩)) = true) := by decide

/-- C2 (code bug): evaluating `liftPromise` on `successResult(Promise.resolve(42))`
— a success whose promise settles with the bare primitive `42`.  The claim and
the documentation of the method itself says the bare settlement value is wrapped in a
success Result; instead the guard applies the in operator to search for
`flatMap` in the primitive `42`, which throws a TypeError, and the catch clause turns
it into a failure Result carrying that TypeError.  The output is a failure and
its success payload is absent. -/
theorem liftPromise_bare_primitive_yields_failure :
    ((Result.success (some (PromiseOr.pending (JsSettled.barePrim (42 : Nat))))
        : Result (PromiseOr Nat String) String).liftPromise).succeeded = false ∧
    ((Result.success (some (PromiseOr.pending (JsSettled.barePrim (42 : Nat))))
        : Result (PromiseOr Nat String) String).liftPromise).failed = true ∧
    ((Result.success (some (PromiseOr.pending (JsSettled.barePrim (42 : Nat))))
        : Result (PromiseOr Nat String) String).liftPromise).value = none ∧
    ((Result.success (some (PromiseOr.pending (JsSettled.barePrim (42 : Nat))))
        : Result (PromiseOr Nat String) String).liftPromise).error =
      some "TypeError: Cannot use the in operator to search for flatMap in a primitive value" :=
  ⟨rfl, rfl, rfl, rfl⟩

/-- C5 (confirmed): `onSuccess` runs its handler exactly on a succeeded Result
and `onFailure` exactly on a failed one, each returning `this` unchanged when
the handler returns normally (and, on the non-matching branch, returning `this`
without consulting the handler at all); when the handler throws, the operation
returns a new failure Result whose payload describes that the handler threw,
instead of propagating the exception. -/
theorem onSuccess_onFailure_spec {S F : Type} [Result.ToStringObj F]
    (r : Result S F) (hS : S → Option Result.JsError) (hF : F → Option Result.JsError) :
    (r.succeeded = false → r.onSuccess hS = r) ∧
    (∀ v, r.value = some v → r.succeeded = true →
      (hS v = none → r.onSuccess hS = r) ∧
      (∀ err, hS v = some err →
        (r.onSuccess hS).failed = true ∧
        (r.onSuccess hS).error = some (Result.ToStringObj.ofStr
          ("Result.onSuccess handler threw an error" ++ "; error: " ++ err.message)))) ∧
    (r.failed = false → r.onFailure hF = r) ∧
    (∀ e, r.error = some e →
      (hF e = none → r.onFailure hF = r) ∧
      (∀ err, hF e = some err →
        (r.onFailure hF).failed = true ∧
        (r.onFailure hF).error = some (Result.ToStringObj.ofStr
          ("Result.onFailure handler threw an error" ++ "; error: " ++ err.message)))) := by
  rcases r with ⟨val, err⟩
  rcases val with _ | v₀ <;> rcases err with _ | e₀
  · exact ⟨fun _ => rfl, fun v hv => Option.noConfusion hv, fun _ => rfl,
      fun e he => Option.noConfusion he⟩
  · refine ⟨fun _ => rfl, fun v hv => Option.noConfusion hv,
      fun h => absurd h (by simp [Result.failed]), fun e he => ?_⟩
    injection he with he
    subst he
    constructor
    · intro hn
      simp [Result.onFailure, Result.failed, hn]
    · intro errObj herr
      simp [Result.onFailure, Result.failed, herr, Result.errorMessageResult]
  · refine ⟨fun h => absurd h (by simp [Result.succeeded]), fun v hv _ => ?_,
      fun _ => rfl, fun e he => Option.noConfusion he⟩
    injection hv with hv
    subst hv
    constructor
    · intro hn
      simp [Result.onSuccess, Result.succeeded, hn]
    · intro errObj herr
      simp [Result.onSuccess, Result.succeeded, herr, Result.errorMessageResult]
  · refine ⟨fun _ => rfl, fun v hv hs => absurd hs (by simp [Result.succeeded]),
      fun h => absurd h (by simp [Result.failed]), fun e he => ?_⟩
    injection he with he
    subst he
    constructor
    · intro hn
      simp [Result.onFailure, Result.failed, hn]
    · intro errObj herr
      simp [Result.onFailure, Result.failed, herr, Result.errorMessageResult]

/-- C5 witness: a throwing success handler on the concrete Result
`successResult(1)` yields a failure Result describing the handler fault. -/
theorem onSuccess_onFailure_spec_witness :
    ((Result.success (some (1 : Nat)) : Result Nat String).onSuccess
        (fun _ => some ⟨"boom"⟩)).failed = true :=
  (((onSuccess_onFailure_spec (Result.success (some 1)) (fun _ => some ⟨"boom"⟩)
      (fun _ => none)).2.1 1 rfl rfl).2 ⟨"boom"⟩ rfl).1

/-- C8 (confirmed): `Optional.map` propagates an absent Optional as absent
without consulting the mapper (the output is `empty` for every mapper), and
for a present value wraps the mapper output via `ofNullable`, so the result is
empty exactly when the mapper returned the absent marker (`null` or
`undefined`). -/
theorem optional_map_spec {T U : Type} (o : Optional T) (mapper : T → JsNullable U) :
    (o.isEmpty = true → o.map mapper = Optional.empty) ∧
    (o.isEmpty = true → ∀ m₂ : T → JsNullable U, o.map mapper = o.map m₂) ∧
    (∀ t, o.value = .val t → o.map mapper = Optional.ofNullable (mapper t)) ∧
    (∀ t, o.value = .val t →
      ((o.map mapper).isEmpty = true ↔ (mapper t = .jsundefined ∨ mapper t = .jsnull))) := by
  rcases o with ⟨x⟩
  rcases x with _ | _ | t₀
  · exact ⟨fun _ => rfl, fun _ _ => rfl, fun t ht => JsNullable.noConfusion ht,
      fun t ht => JsNullable.noConfusion ht⟩
  · exact ⟨fun _ => rfl, fun _ _ => rfl, fun t ht => JsNullable.noConfusion ht,
      fun t ht => JsNullable.noConfusion ht⟩
  · refine ⟨fun h => absurd h (by simp [Optional.isEmpty]), fun h => absurd h (by simp [Optional.isEmpty]),
      fun t ht => ?_, fun t ht => ?_⟩
    · injection ht with ht
      subst ht
      rfl
    · injection ht with ht
      subst ht
      cases hm : mapper t₀ <;>
        simp [Optional.map, Optional.isNotEmpty, Optional.ofNullable, Optional.isEmpty,
          Optional.empty, hm]

/-- C8 witness: mapping over the concrete present Optional `Optional.of(5)`
wraps the mapper output. -/
theorem optional_map_spec_witness :
    (Optional.of (5 : Nat)).map (fun t => JsNullable.val (t + 1)) =
      Optional.ofNullable (JsNullable.val 6) :=
  (optional_map_spec (Optional.of 5) (fun t => JsNullable.val (t + 1))).2.2.1 5 rfl

/-! Helper lemmas for the aggregation functions. -/

theorem Result.succeeded_iff {S F : Type} (r : Result S F) :
    r.succeeded = true ↔ (∃ v, r.value = some v) ∧ r.error = none := by
  rcases r with ⟨val, err⟩
  rcases val with _ | v₀ <;> rcases err with _ | e₀ <;> simp [Result.succeeded]

theorem length_filter_eq_iff {α : Type} (p : α → Bool) (l : List α) :
    (l.filter p).length = l.length ↔ ∀ a ∈ l, p a = true := by
  induction l with
  | nil => simp
  | cons a l ih =>
    cases hpa : p a
    · rw [List.filter_cons_of_neg (by simp [hpa])]
      have hle := List.length_filter_le p l
      simp only [List.length_cons]
      constructor
      · intro h
        omega
      · intro h
        have hcontra := h a (List.mem_cons_self a l)
        rw [hpa] at hcontra
        exact absurd hcontra (by simp)
    · rw [List.filter_cons_of_pos hpa]
      simp [List.forall_mem_cons, hpa, ih]

theorem collectFailed_eq_filterMap {S F : Type} (l : List (Result S F)) :
    collectFailed l = l.filterMap Result.error := by
  induction l with
  | nil => rfl
  | cons r rest ih =>
    rcases r with ⟨val, err⟩
    rcases err with _ | e₀ <;>
      simp [collectFailed, Result.failed, List.filterMap_cons, ih]

theorem collectSucceeded_of_all {S F : Type} (l : List (Result S F))
    (h : ∀ r ∈ l, r.succeeded = true) :
    collectSucceeded l = l.filterMap Result.value := by
  induction l with
  | nil => rfl
  | cons r rest ih =>
    have h1 := h r (List.mem_cons_self r rest)
    have ih2 := ih (fun x hx => h x (List.mem_cons_of_mem r hx))
    rcases r with ⟨val, err⟩
    rcases val with _ | v₀ <;> rcases err with _ | e₀
    · simp [Result.succeeded] at h1
    · simp [Result.succeeded] at h1
    · simp [collectSucceeded, Result.succeeded, List.filterMap_cons, ih2]
    · simp [Result.succeeded] at h1

/-- C4 (confirmed): `forEachResult` succeeds exactly when every transformed
Result succeeded, in which case it wraps the ordered sequence of all
transformed success values; otherwise it fails wrapping the ordered sequence
of all failure payloads of the transformed Results.  `forEachElement` equals
`forEachResult` applied to the mapped elements with an identity handler. -/
theorem forEachResult_forEachElement_spec {SI FI SO FO V S F : Type}
    (resultList : List (Result SI FI)) (handler : Result SI FI → Result SO FO)
    (elems : List V) (handler₂ : V → Result S F) :
    ((forEachResult resultList handler).succeeded = true ↔
      ∀ r ∈ resultList.map handler, r.succeeded = true) ∧
    ((forEachResult resultList handler).succeeded = true →
      (forEachResult resultList handler).value =
        some ((resultList.map handler).filterMap Result.value)) ∧
    ((forEachResult resultList handler).succeeded = false →
      (forEachResult resultList handler).failed = true ∧
      (forEachResult resultList handler).error =
        some ((resultList.map handler).filterMap Result.error)) ∧
    forEachElement elems handler₂ = forEachResult (elems.map handler₂) (fun r => r) := by
  have heq : forEachElement elems handler₂ = forEachResult (elems.map handler₂) (fun r => r) := by
    unfold forEachElement forEachResult
    simp [ Function.comp_def]
  by_cases hall : ∀ r ∈ resultList.map handler, r.succeeded = true
  · have hlen : ((resultList.map handler).filter (fun result => result.succeeded)).length =
        (resultList.map handler).length := (length_filter_eq_iff _ _).mpr hall
    have hout : forEachResult resultList handler =
        Result.mkSuccess (some (collectSucceeded (resultList.map handler))) := by
      unfold forEachResult
      simp [hlen]
    refine ⟨?_, ?_, ?_, heq⟩
    · rw [hout]
      exact iff_of_true (by simp) hall
    · intro _
      rw [hout, collectSucceeded_of_all _ hall]
      rfl
    · intro h
      rw [hout] at h
      simp at h
  · have hlen : ((resultList.map handler).filter (fun result => result.succeeded)).length ≠
        (resultList.map handler).length := fun h => hall ((length_filter_eq_iff _ _).mp h)
    have hout : forEachResult resultList handler =
        Result.failure (collectFailed (resultList.map handler)) := by
      unfold forEachResult
      simp only [ne_eq]
      rw [if_pos hlen]
    refine ⟨?_, ?_, ?_, heq⟩
    · rw [hout]
      simp only [Result.failure_eq, Result.succeeded_mkFailure]
      exact ⟨fun h => absurd h (by simp), fun h => absurd h hall⟩
    · intro h
      rw [hout] at h
      simp at h
    · intro _
      rw [collectFailed_eq_filterMap] at hout
      rw [hout]
      exact ⟨rfl, rfl⟩

/-- C4 witness: applied at the concrete input list `[success 1, failure "x"]`
with the identity handler, the aggregate fails with the full failure list. -/
theorem forEachResult_forEachElement_spec_witness :
    (forEachResult [Result.success (some (1 : Nat)), Result.failure "x"]
        (fun r => r)).error = some ["x"] :=
  ((forEachResult_forEachElement_spec
      [Result.success (some (1 : Nat)), (Result.failure "x" : Result Nat String)]
      (fun r => r) ([] : List Nat)
      (fun v => (Result.success (some v) : Result Nat String))).2.2.1 (by decide)).2

/-! Helper lemmas for `reduceToResult`. -/

theorem reduceStep_error {V S F : Type} (falsy : S → Bool)
    (reducer : Option S → V → Result S F) (acc : Option S) (fs : List F) (v : V) (e : F)
    (h : (reducer acc v).error = some e) :
    Result.reduceStep falsy reducer (acc, fs) v = (acc, fs ++ [e]) := by
  unfold Result.reduceStep
  simp [h]

theorem reduceAccum_allFail_length {V S F : Type} (falsy : S → Bool)
    (reducer : Option S → V → Result S F)
    (h : ∀ (acc : Option S) (v : V), ((reducer acc v).error).isSome = true) :
    ∀ (values : List V) (a : Option S) (fs : List F),
      ((values.foldl (Result.reduceStep falsy reducer) (a, fs)).2).length =
        fs.length + values.length := by
  intro values
  induction values with
  | nil =>
    intro a fs
    simp
  | cons v vs ih =>
    intro a fs
    obtain ⟨e, he⟩ := Option.isSome_iff_exists.mp (h a v)
    rw [List.foldl_cons, reduceStep_error falsy reducer a fs v e he, ih]
    simp [List.length_append]
    omega

/-- C3 counterexample: with `initialValue = 0` and a reducer that fails on the
element `1` and succeeds (changing the accumulator to `2`) on the element `2`,
the final accumulator `2` did **not** remain the initial value `0`, so the
claim predicts an overall success; the code nevertheless reports failure,
because it reports failure whenever any failure was collected. -/
theorem reduceToResult_failure_despite_changed_accumulator :
    (reduceToResult (fun n => n == 0) [1, 2]
        (fun acc v => if v == 1 then Result.failure "err" else Result.success (some (acc.getD 0 + v)))
        (some 0)).failed = true ∧
    (reduceAccum (fun n => n == 0) [1, 2]
        (fun acc v => if v == 1 then Result.failure "err" else Result.success (some (acc.getD 0 + v)))
        (some 0)).1 = some 2 ∧
    (some 2 : Option Nat) ≠ some 0 := by
  decide

/-- C3 (amended): `reduceToResult` folds left; a failing step appends the
failure payload and keeps the accumulator unchanged; the operation reports
failure with the full failure list exactly when the final accumulator is
`undefined` **or** any failure occurred (not only when the accumulator
remained the initial sentinel), and otherwise succeeds with the final
accumulator; a reducer that always fails yields one failure-list entry per
input element. -/
theorem reduceToResult_amended {V S F : Type} (falsy : S → Bool) (values : List V)
    (reducer : Option S → V → Result S F) (init : Option S) :
    ((reduceToResult falsy values reducer init).failed = true ↔
      ((reduceAccum falsy values reducer init).1 = none ∨
        (reduceAccum falsy values reducer init).2 ≠ [])) ∧
    ((reduceToResult falsy values reducer init).failed = true →
      (reduceToResult falsy values reducer init).error =
        some (reduceAccum falsy values reducer init).2) ∧
    ((reduceToResult falsy values reducer init).failed = false →
      (reduceToResult falsy values reducer init).succeeded = true ∧
      (reduceToResult falsy values reducer init).value =
        (reduceAccum falsy values reducer init).1) ∧
    (∀ (acc : Option S) (fs : List F) (v : V) (e : F),
      (reducer acc v).error = some e →
      Result.reduceStep falsy reducer (acc, fs) v = (acc, fs ++ [e])) ∧
    ((∀ (acc : Option S) (v : V), ((reducer acc v).error).isSome = true) →
      (reduceAccum falsy values reducer init).2.length = values.length) := by
  have hdef : reduceToResult falsy values reducer init =
      (if (reduceAccum falsy values reducer init).1.isNone
          || !(reduceAccum falsy values reducer init).2.isEmpty then
        Result.failure (reduceAccum falsy values reducer init).2
      else Result.mkSuccess (reduceAccum falsy values reducer init).1) := rfl
  refine ⟨?_, ?_, ?_, reduceStep_error falsy reducer, ?_⟩
  · rcases hq : reduceAccum falsy values reducer init with ⟨p1, p2⟩
    rw [hdef, hq]
    rcases p1 with _ | a <;> rcases p2 with _ | ⟨f, fs⟩ <;> simp
  · rcases hq : reduceAccum falsy values reducer init with ⟨p1, p2⟩
    rw [hdef, hq]
    rcases p1 with _ | a <;> rcases p2 with _ | ⟨f, fs⟩ <;> simp
  · rcases hq : reduceAccum falsy values reducer init with ⟨p1, p2⟩
    rw [hdef, hq]
    rcases p1 with _ | a <;> rcases p2 with _ | ⟨f, fs⟩ <;> simp
  · intro h
    have := reduceAccum_allFail_length falsy reducer h values init []
    simpa [reduceAccum] using this

/-- C3 witness: for the always-failing reducer on a two-element input the
collected failure list has exactly two entries. -/
theorem reduceToResult_amended_witness :
    (reduceAccum (fun n => n == 0) [10, 20]
        (fun _ _ => (Result.failure "e" : Result Nat String)) (some 0)).2.length = 2 :=
  (reduceToResult_amended (fun n => n == 0) [10, 20]
      (fun _ _ => Result.failure "e") (some 0)).2.2.2.2 (fun _ _ => rfl)

/-- C9 (confirmed): when a reducer step returns a success whose value is falsy
(for example the number `0`), the expression `result.value || reducedValue`
discards the step output and the fold keeps the previous accumulator; hence a
run whose steps all succeed can end with an accumulator different from the
last reducer output, as the concrete run with reducer output `0` and initial
accumulator `7` shows. -/
theorem reduceStep_falsy_keeps_accumulator :
    (∀ (V S F : Type) (falsy : S → Bool) (reducer : Option S → V → Result S F)
        (acc : Option S) (fs : List F) (v : V) (x : S),
        (reducer acc v).error = none → (reducer acc v).value = some x → falsy x = true →
        Result.reduceStep falsy reducer (acc, fs) v = (acc, fs)) ∧
    (reduceToResult (fun n => n == 0) [5]
        (fun _ _ => (Result.success (some 0) : Result Nat String)) (some 7) =
      Result.mkSuccess (some 7)) ∧
    ((some 7 : Option Nat) ≠ some 0) := by
  refine ⟨?_, by decide, by decide⟩
  intro V S F falsy reducer acc fs v x he hv hf
  unfold Result.reduceStep
  simp [he, hv, hf]

/-- C9 witness: the falsy-success step applied at a concrete step whose
reducer returns success `0` with accumulator `7`. -/
theorem reduceStep_falsy_keeps_accumulator_witness :
    Result.reduceStep (fun n => n == 0)
      (fun _ _ => (Result.success (some 0) : Result Nat String))
      ((some 7 : Option Nat), ([] : List String)) 5 = (some 7, []) :=
  reduceStep_falsy_keeps_accumulator.1 Nat Nat String (fun n => n == 0)
    (fun _ _ => Result.success (some 0)) (some 7) [] 5 0 rfl rfl rfl
